import Mathlib

/-!
Verification of koko, pkg/srvconn/sshconn.go

A shallow embedding of `ServerSSHConnection` (the server side SSH bridge of the
gateway) and proofs about its connect / close / resize / timeout life cycle and
its X11 forwarding relay.

Modelling conventions

* Pointers are `Option`: `none` is the Go nil pointer.
* Every call that leaves the file (the connection pool, the upstream SSH
  session, the logger) appends one `Event` to the `World`, the chronological
  trace of external calls.  What such a call answers is scripted by an `Env`:
  the answer to the n-th call of one operation is `env.op n args`, where `n` is
  the number of earlier calls of that same operation found in the trace.
* A method called on a nil `*gossh.Session`, nil `*SSHClient` or nil
  `*sync.Once` dereferences its receiver; this is the Go run time panic
  `Outcome.panicked`.
* `time.Duration` is an `Int` number of nanoseconds; no arithmetic is performed
  on it besides the constant `30 * time.Second`.
-/

namespace Koko

/-- Go `error` values that are not nil, identified by their message. -/
abbrev Err := String

/-- A non-nil `*SSHClient` (the pooled transport handle). -/
abbrev SSHClient := Nat

/-- A non-nil `*gossh.Session` (one upstream shell channel). -/
abbrev Session := Nat

/-- A stream end point returned by `StdinPipe` / `StdoutPipe`. -/
abbrev Pipe := Nat

/-- A non-nil `*gossh.ServerConn`: the client facing SSH connection. -/
abbrev ServerConn := Nat

/-- An SSH channel (`gossh.Channel`). -/
abbrev Channel := Nat

/-- The request stream that comes with an opened channel (`<-chan *gossh.Request`). -/
abbrev Requests := Nat

/-- How a Go call ends: it returns a value, or it panics. -/
inductive Outcome (α : Type) where
  | ret (a : α)
  | panicked
deriving DecidableEq, Repr

/-- Go `time.Second`, in nanoseconds. -/
def Second : Int := 1000000000

/-- Terminal mode opcode `gossh.ECHO`. -/
def ECHO : Nat := 53

/-- Terminal mode opcode `gossh.TTY_OP_ISPEED`. -/
def TTY_OP_ISPEED : Nat := 128

/-- Terminal mode opcode `gossh.TTY_OP_OSPEED`. -/
def TTY_OP_OSPEED : Nat := 129

/-- The `gossh.TerminalModes` literal of `invokeShell`, as opcode / value pairs. -/
def modes : List (Nat × Nat) :=
  [(ECHO, 1), (TTY_OP_ISPEED, 14400), (TTY_OP_OSPEED, 14400)]

/-- The client facing `ssh.Session`, reduced to what this file reads from it:
the optional X11 request payload and the `*gossh.ServerConn` stored in its
context under `ssh.ContextKeyConn`. -/
structure ClientSession where
  X11ReqPayload : Option (List Nat)
  conn : ServerConn
deriving DecidableEq, Repr

/-- External calls, in the order they are issued. -/
inductive Event where
  | newClient (user asset systemUser : Nat) (timeout : Int) (reuse : Bool)
  | recycleClient (c : Option SSHClient)
  | newSession (c : SSHClient)
  | sendRequest (s : Session) (name : String) (wantReply : Bool) (payload : List Nat)
  | handleChannelOpen (c : SSHClient) (channelType : String)
  | goX11Listener (c : SSHClient)
  | requestPty (s : Session) (term : String) (h w : Int) (m : List (Nat × Nat))
  | stdinPipe (s : Session)
  | stdoutPipe (s : Session)
  | shell (s : Session)
  | windowChange (s : Session) (h w : Int)
  | sessionClose (s : Session)
  | logErrorf (format : String)
  | logInfof (format : String)
deriving DecidableEq, Repr

/-- The chronological trace of external calls. -/
abbrev World := List Event

namespace Event

def isNewClient : Event → Bool
  | newClient .. => true
  | _ => false

def isRecycle : Event → Bool
  | recycleClient _ => true
  | _ => false

/-- A `RecycleClient` call for the handle `c`. -/
def isRecycleOf (c : SSHClient) : Event → Bool
  | recycleClient (some d) => d == c
  | _ => false

def isNewSession : Event → Bool
  | newSession _ => true
  | _ => false

def isSendRequest : Event → Bool
  | sendRequest .. => true
  | _ => false

def isHandleChannelOpen : Event → Bool
  | handleChannelOpen .. => true
  | _ => false

def isRequestPty : Event → Bool
  | requestPty .. => true
  | _ => false

def isStdinPipe : Event → Bool
  | stdinPipe _ => true
  | _ => false

def isStdoutPipe : Event → Bool
  | stdoutPipe _ => true
  | _ => false

def isShell : Event → Bool
  | shell _ => true
  | _ => false

def isWindowChange : Event → Bool
  | windowChange .. => true
  | _ => false

def isSessionClose : Event → Bool
  | sessionClose _ => true
  | _ => false

/-- What the X11 block of shell setup can emit: the x11-req request, the
handler registration, the listener start, and an error log. -/
def isX11 : Event → Bool
  | sendRequest .. => true
  | handleChannelOpen .. => true
  | goX11Listener _ => true
  | logErrorf _ => true
  | _ => false

/-- The PTY / stdin / stdout / shell steps of shell setup. -/
def isShellStep (e : Event) : Bool :=
  e.isRequestPty || e.isStdinPipe || e.isStdoutPipe || e.isShell

end Event

/-- The number of calls of one operation recorded in a trace. -/
def calls (p : Event → Bool) (wd : World) : Nat := wd.countP p

/-- The trace without the calls of the X11 block and without error logs. -/
def obs (wd : World) : World := wd.filter (fun e => !e.isX11)

/-- Scripted answers of the collaborators.  The first argument of every field is
the number of earlier calls of that operation. -/
structure Env where
  newClient : Nat → Nat → Nat → Nat → Int → Bool → Except Err SSHClient
  newSession : Nat → SSHClient → Except Err Session
  sendRequest : Nat → Session → String → Bool → List Nat → Bool × Option Err
  requestPty : Nat → Session → String → Int → Int → List (Nat × Nat) → Option Err
  stdinPipe : Nat → Session → Except Err Pipe
  stdoutPipe : Nat → Session → Except Err Pipe
  shell : Nat → Session → Option Err
  windowChange : Nat → Session → Int → Int → Option Err
  sessionClose : Nat → Session → Option Err

/-- The Go struct `ServerSSHConnection`.  `CloseOnce` is the pointer to a
`sync.Once`; the boolean tells whether it has fired. -/
structure ServerSSHConnection where
  User : Nat
  Asset : Nat
  SystemUser : Nat
  Overtime : Int
  CloseOnce : Option Bool
  ReuseConnection : Bool
  client : Option SSHClient
  session : Option Session
  stdin : Option Pipe
  stdout : Option Pipe
deriving DecidableEq, Repr

/-- Go method `SetSSHClient`: stores the handle unless it is nil. -/
def SetSSHClient (sc : ServerSSHConnection) (client : Option SSHClient) : ServerSSHConnection :=
  match client with
  | some c => { sc with client := some c }
  | none => sc

/-- Go method `Protocol`. -/
def Protocol (_sc : ServerSSHConnection) : String := "ssh"

/-- Go method `Timeout`: returns the value and the bridge after the lazy default was stored. -/
def Timeout (sc : ServerSSHConnection) : Int × ServerSSHConnection :=
  let sc1 := if sc.Overtime = 0 then { sc with Overtime := 30 * Second } else sc
  (sc1.Overtime, sc1)

/-- Go method `HandleX11Proxy`.  The bridge itself is not modified. -/
def HandleX11Proxy (env : Env) (clientSess : ClientSession) (sc : ServerSSHConnection)
    (wd : World) : Outcome (Option Err) × World :=
  match clientSess.X11ReqPayload with
  | none => (.ret none, wd)
  | some payload =>
    match sc.session with
    | none => (.panicked, wd)
    | some sess =>
      let reply := env.sendRequest (calls Event.isSendRequest wd) sess "x11-req" true payload
      let wd1 := wd ++ [Event.sendRequest sess "x11-req" true payload]
      let err : Option Err :=
        if reply.2 = none ∧ reply.1 = false then some "ssh: x11-req failed" else reply.2
      match err with
      | some e => (.ret (some e), wd1)
      | none =>
        match sc.client with
        | none => (.panicked, wd1)
        | some c => (.ret none, wd1 ++ [Event.handleChannelOpen c "x11", Event.goX11Listener c])

/-- The part of `invokeShell` after the X11 block: PTY request, the two pipes, the shell. -/
def invokeShell.start (env : Env) (sess : Session) (h w : Int) (term : String)
    (sc : ServerSSHConnection) (wd : World) : Option Err × ServerSSHConnection × World :=
  let ptyErr := env.requestPty (calls Event.isRequestPty wd) sess term h w modes
  let wd1 := wd ++ [Event.requestPty sess term h w modes]
  match ptyErr with
  | some e => (some e, sc, wd1)
  | none =>
    let inRes := env.stdinPipe (calls Event.isStdinPipe wd1) sess
    let wd2 := wd1 ++ [Event.stdinPipe sess]
    match inRes with
    | .error e => (some e, { sc with stdin := none }, wd2)
    | .ok i =>
      let sc2 := { sc with stdin := some i }
      let outRes := env.stdoutPipe (calls Event.isStdoutPipe wd2) sess
      let wd3 := wd2 ++ [Event.stdoutPipe sess]
      match outRes with
      | .error e => (some e, { sc2 with stdout := none }, wd3)
      | .ok o =>
        let sc3 := { sc2 with stdout := some o }
        (env.shell (calls Event.isShell wd3) sess, sc3, wd3 ++ [Event.shell sess])

/-- The X11 block of `invokeShell` (entered after `sc.session` was set): when a
client session is given, `HandleX11Proxy` is called and its error is only logged. -/
def invokeShell.x11 (env : Env) (clientSess : Option ClientSession) (sc : ServerSSHConnection)
    (wd : World) : Outcome Unit × World :=
  match clientSess with
  | none => (.ret (), wd)
  | some cs =>
    match HandleX11Proxy env cs sc wd with
    | (.panicked, wd1) => (.panicked, wd1)
    | (.ret (some _), wd1) => (.ret (), wd1 ++ [Event.logErrorf "handle x11 failed, err: %s"])
    | (.ret none, wd1) => (.ret (), wd1)

/-- Go method `invokeShell`. -/
def invokeShell (env : Env) (clientSess : Option ClientSession) (h w : Int) (term : String)
    (sc : ServerSSHConnection) (wd : World) :
    Outcome (Option Err) × ServerSSHConnection × World :=
  match sc.client with
  | none => (.panicked, sc, wd)
  | some c =>
    let res := env.newSession (calls Event.isNewSession wd) c
    let wd1 := wd ++ [Event.newSession c]
    match res with
    | .error e => (.ret (some e), sc, wd1)
    | .ok sess =>
      let sc1 := { sc with session := some sess }
      match invokeShell.x11 env clientSess sc1 wd1 with
      | (.panicked, wd2) => (.panicked, sc1, wd2)
      | (.ret _, wd2) =>
        let r := invokeShell.start env sess h w term sc1 wd2
        (.ret r.1, r.2.1, r.2.2)

/-- Go method `Connect`. -/
def Connect (env : Env) (clientSess : Option ClientSession) (h w : Int) (term : String)
    (sc : ServerSSHConnection) (wd : World) :
    Outcome (Option Err) × ServerSSHConnection × World :=
  let acquired : Option Err × ServerSSHConnection × World :=
    match sc.client with
    | some _ => (none, sc, wd)
    | none =>
      let t := Timeout sc
      let res := env.newClient (calls Event.isNewClient wd) sc.User sc.Asset sc.SystemUser t.1
        sc.ReuseConnection
      let wd1 := wd ++ [Event.newClient sc.User sc.Asset sc.SystemUser t.1 sc.ReuseConnection]
      match res with
      | .error e => (some e, { t.2 with client := none }, wd1 ++ [Event.logErrorf "New SSH client err: %s"])
      | .ok c => (none, { t.2 with client := some c }, wd1)
  match acquired with
  | (some e, sc1, wd1) => (.ret (some e), sc1, wd1)
  | (none, sc1, wd1) =>
    match invokeShell env clientSess h w term sc1 wd1 with
    | (.panicked, sc2, wd2) => (.panicked, sc2, wd2)
    | (.ret (some e), sc2, wd2) =>
      (.ret (some e), sc2,
        wd2 ++ [Event.logErrorf "SSH client %p start ssh shell session err %s",
                Event.recycleClient sc2.client])
    | (.ret none, sc2, wd2) =>
      (.ret none, sc2, wd2 ++ [Event.logInfof "SSH client %p start ssh shell session success"])

/-- The last lines of `Connect`, as a function of what shell setup returned: on
an error the error log and `RecycleClient(sc.client)`, else the success log. -/
def Connect.finish (r : Option Err × ServerSSHConnection × World) :
    Outcome (Option Err) × ServerSSHConnection × World :=
  match r.1 with
  | some e =>
    (.ret (some e), r.2.1,
      r.2.2 ++ [Event.logErrorf "SSH client %p start ssh shell session err %s",
                Event.recycleClient r.2.1.client])
  | none =>
    (.ret none, r.2.1, r.2.2 ++ [Event.logInfof "SSH client %p start ssh shell session success"])

/-- What is required of a Connect result `r` started on the trace `wd` when a
shell-setup stage failed with `e` on handle `c`: Connect returns `e`, and
between entry and return RecycleClient was called exactly once, for `c`. -/
def FailedRecycled (wd : World) (c : SSHClient) (e : Err)
    (r : Outcome (Option Err) × ServerSSHConnection × World) : Prop :=
  r.1 = Outcome.ret (some e) ∧
  calls (Event.isRecycleOf c) r.2.2 = calls (Event.isRecycleOf c) wd + 1 ∧
  calls Event.isRecycle r.2.2 = calls Event.isRecycle wd + 1

/-- No call of the operation `p` was made between the trace `wd` and the result `r`. -/
def NotAttempted (p : Event → Bool) (wd : World)
    (r : Outcome (Option Err) × ServerSSHConnection × World) : Prop :=
  calls p r.2.2 = calls p wd

/-- Go method `SetWinSize`. -/
def SetWinSize (env : Env) (h w : Int) (sc : ServerSSHConnection) (wd : World) :
    Outcome (Option Err) × World :=
  match sc.session with
  | none => (.panicked, wd)
  | some sess =>
    (.ret (env.windowChange (calls Event.isWindowChange wd) sess h w),
      wd ++ [Event.windowChange sess h w])

/-- Go method `Close`. -/
def Close (env : Env) (sc : ServerSSHConnection) (wd : World) :
    Outcome (Option Err) × ServerSSHConnection × World :=
  match sc.CloseOnce with
  | none => (.panicked, sc, wd)
  | some fired =>
    let wd1 := if fired then wd else wd ++ [Event.recycleClient sc.client]
    let sc1 := { sc with CloseOnce := some true }
    match sc.session with
    | none => (.panicked, sc1, wd1)
    | some sess =>
      (.ret (env.sessionClose (calls Event.isSessionClose wd1) sess), sc1,
        wd1 ++ [Event.sessionClose sess])

/-- Calling `Close` `n` times in a row; the results are listed first call first. -/
def closeTimes (env : Env) : Nat → ServerSSHConnection → World →
    List (Outcome (Option Err)) × ServerSSHConnection × World
  | 0, sc, wd => ([], sc, wd)
  | n + 1, sc, wd =>
    let r := Close env sc wd
    let rest := closeTimes env n r.2.1 r.2.2
    (r.1 :: rest.1, rest.2.1, rest.2.2)

/-! ## The X11 channel-open listener -/

/-- One inbound `gossh.NewChannel` of type x11 delivered by the upstream
connection: the answer its `Accept` gives and its `ExtraData`. -/
structure NewChannel where
  Accept : Except Err Channel
  ExtraData : List Nat

/-- What the listener goroutine does, in order.  `goCopy dst src` is the start
of a goroutine that runs `io.Copy(dst, src)` and closes both channels when the
copy ends; `goReplyFalse reqs` is the start of the goroutine that answers every
request arriving on `reqs` with `Reply(false, nil)`. -/
inductive X11Event where
  | accept (extra : List Nat)
  | openChannel (conn : ServerConn) (channelType : String) (extra : List Nat)
  | goCopy (dst src : Channel)
  | goReplyFalse (reqs : Requests)
deriving DecidableEq, Repr

def X11Event.isAccept : X11Event → Bool
  | accept _ => true
  | _ => false

def X11Event.isOpenChannel : X11Event → Bool
  | openChannel .. => true
  | _ => false

/-- The answer of the client connection to the n-th `OpenChannel` call. -/
abbrev OpenChannelScript := Nat → ServerConn → String → List Nat → Except Err (Channel × Requests)

/-- The body of the goroutine of `HandleX11Proxy`: the loop
`for ch := range x11channels` run over the channel-open events that arrive. -/
def x11Listener (openChannel : OpenChannelScript) (clientSess : ClientSession) :
    List NewChannel → List X11Event → List X11Event
  | [], tr => tr
  | ch :: rest, tr =>
    let tr1 := tr ++ [X11Event.accept ch.ExtraData]
    match ch.Accept with
    | .error _ => x11Listener openChannel clientSess rest tr1
    | .ok remoteCh =>
      let remotePayload := ch.ExtraData
      let res := openChannel (tr1.countP X11Event.isOpenChannel) clientSess.conn "x11" remotePayload
      let tr2 := tr1 ++ [X11Event.openChannel clientSess.conn "x11" remotePayload]
      match res with
      | .error _ => x11Listener openChannel clientSess rest tr2
      | .ok (clientCh, clientReqCh) =>
        x11Listener openChannel clientSess rest
          (tr2 ++ [X11Event.goCopy clientCh remoteCh, X11Event.goCopy remoteCh clientCh,
                   X11Event.goReplyFalse clientReqCh])

/-! ## Concrete collaborators used to evaluate the code -/

/-- Collaborators that answer every call with success. -/
def okEnv : Env where
  newClient := fun _ _ _ _ _ _ => .ok 7
  newSession := fun _ _ => .ok 3
  sendRequest := fun _ _ _ _ _ => (true, none)
  requestPty := fun _ _ _ _ _ _ => none
  stdinPipe := fun _ _ => .ok 10
  stdoutPipe := fun _ _ => .ok 11
  shell := fun _ _ => none
  windowChange := fun _ _ _ _ => none
  sessionClose := fun n _ => if n = 0 then none else some "EOF"

/-- A freshly constructed bridge: no handle, no session, guard not fired. -/
def freshBridge : ServerSSHConnection where
  User := 1
  Asset := 2
  SystemUser := 3
  Overtime := 0
  CloseOnce := some false
  ReuseConnection := true
  client := none
  session := none
  stdin := none
  stdout := none

/-- A bridge that was handed a pooled handle through `SetSSHClient`. -/
def heldBridge : ServerSSHConnection := SetSSHClient freshBridge (some 7)

/-- A client session without X11 forwarding. -/
def plainClient : ClientSession := { X11ReqPayload := none, conn := 50 }

/-- A client session that asked for X11 forwarding. -/
def x11Client : ClientSession := { X11ReqPayload := some [1, 2, 3], conn := 50 }

/-- The pool cannot produce a handle. -/
def poolDownEnv : Env := { okEnv with newClient := fun _ _ _ _ _ _ => .error "dial tcp: i/o timeout" }

/-- Opening the upstream session fails. -/
def sessionFailEnv : Env := { okEnv with newSession := fun _ _ => .error "ssh: open failed" }

/-- The PTY request fails. -/
def ptyFailEnv : Env := { okEnv with requestPty := fun _ _ _ _ _ _ => some "ssh: pty-req failed" }

/-- Obtaining stdin fails. -/
def stdinFailEnv : Env := { okEnv with stdinPipe := fun _ _ => .error "ssh: Stdin already set" }

/-- Obtaining stdout fails. -/
def stdoutFailEnv : Env := { okEnv with stdoutPipe := fun _ _ => .error "ssh: Stdout already set" }

/-- The shell request fails. -/
def shellFailEnv : Env := { okEnv with shell := fun _ _ => some "ssh: could not start shell" }

/-- The upstream acknowledges x11-req with false. -/
def x11RejectEnv : Env := { okEnv with sendRequest := fun _ _ _ _ _ => (false, none) }

/-- The x11-req request fails in transport. -/
def x11BrokenEnv : Env := { okEnv with sendRequest := fun _ _ _ _ _ => (false, some "EOF") }

/-- A bridge holding handle 7 with the upstream session 3 open. -/
def openBridge : ServerSSHConnection := { heldBridge with session := some 3 }

/-- The bridge left by a successful Connect on `heldBridge`. -/
def connectedBridge : ServerSSHConnection :=
  (Connect okEnv none 24 80 "xterm" heldBridge []).2.1

/-- The trace left by a successful Connect on `heldBridge`. -/
def connectedWorld : World :=
  (Connect okEnv none 24 80 "xterm" heldBridge []).2.2

/-- A client connection that refuses the first x11 channel and opens the later ones. -/
def flakyOpen : OpenChannelScript :=
  fun n _ _ _ => if n = 0 then .error "ssh: rejected: administratively prohibited"
    else .ok (100 + n, 200 + n)

/-- An inbound x11 channel whose Accept fails. -/
def brokenChannel : NewChannel := { Accept := .error "EOF", ExtraData := [9] }

/-- Inbound x11 channels that can be accepted. -/
def goodChannel (remoteCh : Channel) (extra : List Nat) : NewChannel :=
  { Accept := .ok remoteCh, ExtraData := extra }

/-! ## Trace lemmas -/

theorem calls_append (p : Event → Bool) (a b : World) :
    calls p (a ++ b) = calls p a + calls p b := by
  simp [calls, List.countP_append]

theorem calls_x11_only (p : Event → Bool) (xs : World)
    (hp : ∀ e, e.isX11 = true → p e = false) (hx : ∀ e ∈ xs, e.isX11 = true) :
    calls p xs = 0 := by
  unfold calls
  rw [List.countP_eq_zero]
  intro e he
  simp [hp e (hx e he)]

theorem obs_append (a b : World) : obs (a ++ b) = obs a ++ obs b := by
  simp [obs]

theorem obs_x11_only (xs : World) (hx : ∀ e ∈ xs, e.isX11 = true) : obs xs = [] := by
  unfold obs
  rw [List.filter_eq_nil_iff]
  intro e he
  simp [hx e he]

theorem calls_obs (p : Event → Bool) (wd : World) (hp : ∀ e, e.isX11 = true → p e = false) :
    calls p (obs wd) = calls p wd := by
  induction wd with
  | nil => rfl
  | cons e t ih =>
    unfold calls obs at *
    by_cases hx : e.isX11 = true
    · simp [List.filter_cons, List.countP_cons, hx, hp e hx, ih]
    · simp [List.filter_cons, List.countP_cons, hx, ih]

/-- The X11 block never panics on a bridge with a handle and an open session,
and emits nothing but X11 events. -/
theorem invokeShell_x11_ret (env : Env) (clientSess : Option ClientSession)
    (sc : ServerSSHConnection) (wd : World) (sess : Session) (c : SSHClient)
    (hs : sc.session = some sess) (hc : sc.client = some c) :
    ∃ xs, invokeShell.x11 env clientSess sc wd = (Outcome.ret (), wd ++ xs) ∧
      ∀ e ∈ xs, e.isX11 = true := by
  cases clientSess with
  | none => exact ⟨[], by simp [invokeShell.x11], by simp⟩
  | some cs =>
    cases hp : cs.X11ReqPayload with
    | none => exact ⟨[], by simp [invokeShell.x11, HandleX11Proxy, hp], by simp⟩
    | some p =>
      rcases hr : env.sendRequest (calls Event.isSendRequest wd) sess "x11-req" true p with ⟨ok, err⟩
      cases err with
      | some e =>
        exact ⟨[Event.sendRequest sess "x11-req" true p,
            Event.logErrorf "handle x11 failed, err: %s"],
          by simp [invokeShell.x11, HandleX11Proxy, hp, hs, hr],
          by simp [Event.isX11]⟩
      | none =>
        cases ok with
        | false =>
          exact ⟨[Event.sendRequest sess "x11-req" true p,
              Event.logErrorf "handle x11 failed, err: %s"],
            by simp [invokeShell.x11, HandleX11Proxy, hp, hs, hr],
            by simp [Event.isX11]⟩
        | true =>
          exact ⟨[Event.sendRequest sess "x11-req" true p, Event.handleChannelOpen c "x11",
              Event.goX11Listener c],
            by simp [invokeShell.x11, HandleX11Proxy, hp, hs, hr, hc],
            by simp [Event.isX11]⟩

/-- The steps of `invokeShell.start`, with every call counter read off the
trace the function starts from. -/
theorem invokeShell_start_eq (env : Env) (sess : Session) (h w : Int) (term : String)
    (sc : ServerSSHConnection) (wd : World) :
    invokeShell.start env sess h w term sc wd =
      match env.requestPty (calls Event.isRequestPty wd) sess term h w modes with
      | some e => (some e, sc, wd ++ [Event.requestPty sess term h w modes])
      | none =>
        match env.stdinPipe (calls Event.isStdinPipe wd) sess with
        | .error e =>
          (some e, { sc with stdin := none },
            wd ++ [Event.requestPty sess term h w modes, Event.stdinPipe sess])
        | .ok i =>
          match env.stdoutPipe (calls Event.isStdoutPipe wd) sess with
          | .error e =>
            (some e, { sc with stdin := some i, stdout := none },
              wd ++ [Event.requestPty sess term h w modes, Event.stdinPipe sess,
                     Event.stdoutPipe sess])
          | .ok o =>
            (env.shell (calls Event.isShell wd) sess,
              { sc with stdin := some i, stdout := some o },
              wd ++ [Event.requestPty sess term h w modes, Event.stdinPipe sess,
                     Event.stdoutPipe sess, Event.shell sess]) := by
  unfold invokeShell.start
  simp only [calls, List.countP_append, List.countP_cons, List.countP_nil, Event.isStdinPipe,
    Event.isStdoutPipe, Event.isShell, Bool.false_eq_true, if_false, Nat.add_zero,
    List.append_assoc, List.cons_append, List.nil_append]

/-- Connect on a bridge that holds a handle, when the session cannot be opened. -/
theorem Connect_held_session_error (env : Env) (clientSess : Option ClientSession) (h w : Int)
    (term : String) (sc : ServerSSHConnection) (wd : World) (c : SSHClient) (e : Err)
    (hc : sc.client = some c)
    (hn : env.newSession (calls Event.isNewSession wd) c = Except.error e) :
    Connect env clientSess h w term sc wd =
      (Outcome.ret (some e), sc,
        wd ++ [Event.newSession c,
               Event.logErrorf "SSH client %p start ssh shell session err %s",
               Event.recycleClient (some c)]) := by
  simp [Connect, invokeShell, hc, hn]

/-- Connect on a bridge that holds a handle, when the session opens: the X11
block emits X11 events only, then the PTY / pipes / shell steps run and the
last lines of Connect follow. -/
theorem Connect_held_session_ok (env : Env) (clientSess : Option ClientSession) (h w : Int)
    (term : String) (sc : ServerSSHConnection) (wd : World) (c : SSHClient) (sess : Session)
    (hc : sc.client = some c)
    (hn : env.newSession (calls Event.isNewSession wd) c = Except.ok sess) :
    ∃ xs, (∀ e ∈ xs, e.isX11 = true) ∧
      invokeShell.x11 env clientSess { sc with session := some sess }
        (wd ++ [Event.newSession c]) = (Outcome.ret (), wd ++ [Event.newSession c] ++ xs) ∧
      Connect env clientSess h w term sc wd =
        Connect.finish (invokeShell.start env sess h w term { sc with session := some sess }
          (wd ++ [Event.newSession c] ++ xs)) := by
  obtain ⟨xs, hx, hxs⟩ := invokeShell_x11_ret env clientSess { sc with session := some sess }
    (wd ++ [Event.newSession c]) sess c rfl hc
  refine ⟨xs, hxs, hx, ?_⟩
  simp only [hc] at hx
  simp only [Connect, invokeShell, hc, hn, hx, Connect.finish]
  generalize invokeShell.start env sess h w term _ (wd ++ [Event.newSession c] ++ xs) = r
  rcases r with ⟨_ | e, sc2, wd2⟩ <;> rfl

/-- Connect on a bridge without a handle, when the pool hands one out, goes on
as Connect on the bridge holding that handle. -/
theorem Connect_obtained (env : Env) (clientSess : Option ClientSession) (h w : Int)
    (term : String) (sc : ServerSSHConnection) (wd : World) (c : SSHClient)
    (hnil : sc.client = none)
    (hok : env.newClient (calls Event.isNewClient wd) sc.User sc.Asset sc.SystemUser
      (Timeout sc).1 sc.ReuseConnection = Except.ok c) :
    Connect env clientSess h w term sc wd =
      Connect env clientSess h w term { (Timeout sc).2 with client := some c }
        (wd ++ [Event.newClient sc.User sc.Asset sc.SystemUser (Timeout sc).1
          sc.ReuseConnection]) := by
  simp [Connect, hnil, hok]

/-- Stage by stage description of a failing Connect on a bridge holding `c`. -/
theorem Connect_held_stage_failure (env : Env) (clientSess : Option ClientSession) (h w : Int)
    (term : String) (sc : ServerSSHConnection) (wd : World) (c : SSHClient)
    (hc : sc.client = some c) :
    (∀ e, env.newSession (calls Event.isNewSession wd) c = Except.error e →
      FailedRecycled wd c e (Connect env clientSess h w term sc wd) ∧
      NotAttempted Event.isSendRequest wd (Connect env clientSess h w term sc wd) ∧
      NotAttempted Event.isShellStep wd (Connect env clientSess h w term sc wd)) ∧
    (∀ sess, env.newSession (calls Event.isNewSession wd) c = Except.ok sess →
      (∀ e, env.requestPty (calls Event.isRequestPty wd) sess term h w modes = some e →
        FailedRecycled wd c e (Connect env clientSess h w term sc wd) ∧
        NotAttempted Event.isStdinPipe wd (Connect env clientSess h w term sc wd) ∧
        NotAttempted Event.isStdoutPipe wd (Connect env clientSess h w term sc wd) ∧
        NotAttempted Event.isShell wd (Connect env clientSess h w term sc wd)) ∧
      (env.requestPty (calls Event.isRequestPty wd) sess term h w modes = none →
        (∀ e, env.stdinPipe (calls Event.isStdinPipe wd) sess = Except.error e →
          FailedRecycled wd c e (Connect env clientSess h w term sc wd) ∧
          NotAttempted Event.isStdoutPipe wd (Connect env clientSess h w term sc wd) ∧
          NotAttempted Event.isShell wd (Connect env clientSess h w term sc wd)) ∧
        (∀ i, env.stdinPipe (calls Event.isStdinPipe wd) sess = Except.ok i →
          (∀ e, env.stdoutPipe (calls Event.isStdoutPipe wd) sess = Except.error e →
            FailedRecycled wd c e (Connect env clientSess h w term sc wd) ∧
            NotAttempted Event.isShell wd (Connect env clientSess h w term sc wd)) ∧
          (∀ o e, env.stdoutPipe (calls Event.isStdoutPipe wd) sess = Except.ok o →
            env.shell (calls Event.isShell wd) sess = some e →
            FailedRecycled wd c e (Connect env clientSess h w term sc wd))))) := by
  constructor
  · intro e hn
    rw [Connect_held_session_error env clientSess h w term sc wd c e hc hn]
    simp [FailedRecycled, NotAttempted, calls, List.countP_append, List.countP_cons,
      Event.isRecycleOf, Event.isRecycle, Event.isSendRequest, Event.isShellStep,
      Event.isRequestPty, Event.isStdinPipe, Event.isStdoutPipe, Event.isShell]
  · intro sess hn
    obtain ⟨xs, hxs, -, hC⟩ := Connect_held_session_ok env clientSess h w term sc wd c sess hc hn
    have hW : ∀ p : Event → Bool, (∀ e, e.isX11 = true → p e = false) →
        p (Event.newSession c) = false →
        calls p (wd ++ [Event.newSession c] ++ xs) = calls p wd := by
      intro p hp hpn
      rw [calls_append, calls_append, calls_x11_only p xs hp hxs]
      simp [calls, List.countP_cons, hpn]
    have hpty := hW Event.isRequestPty (by intro e; cases e <;> simp [Event.isX11, Event.isRequestPty]) rfl
    have hin := hW Event.isStdinPipe (by intro e; cases e <;> simp [Event.isX11, Event.isStdinPipe]) rfl
    have hout := hW Event.isStdoutPipe (by intro e; cases e <;> simp [Event.isX11, Event.isStdoutPipe]) rfl
    have hsh := hW Event.isShell (by intro e; cases e <;> simp [Event.isX11, Event.isShell]) rfl
    have hrc := hW Event.isRecycle (by intro e; cases e <;> simp [Event.isX11, Event.isRecycle]) rfl
    have hro := hW (Event.isRecycleOf c)
      (by intro e; cases e <;> simp [Event.isX11, Event.isRecycleOf]) rfl
    rw [hC, invokeShell_start_eq, hpty, hin, hout, hsh]
    clear hC hW
    generalize wd ++ [Event.newSession c] ++ xs = W at *
    refine ⟨?_, ?_⟩
    · intro e hp
      rw [hp]
      simp [FailedRecycled, NotAttempted, Connect.finish, hc, calls_append, hpty, hin, hout,
        hsh, hrc, hro]
      simp [calls, List.countP_cons, Event.isRecycleOf, Event.isRecycle, Event.isStdinPipe,
        Event.isStdoutPipe, Event.isShell]
    · intro hp
      rw [hp]
      refine ⟨?_, ?_⟩
      · intro e hi
        rw [hi]
        simp [FailedRecycled, NotAttempted, Connect.finish, hc, calls_append, hpty, hin, hout,
          hsh, hrc, hro]
        simp [calls, List.countP_cons, Event.isRecycleOf, Event.isRecycle, Event.isStdinPipe,
          Event.isStdoutPipe, Event.isShell]
      · intro i hi
        rw [hi]
        refine ⟨?_, ?_⟩
        · intro e ho
          rw [ho]
          simp [FailedRecycled, NotAttempted, Connect.finish, hc, calls_append, hpty, hin, hout,
            hsh, hrc, hro]
          simp [calls, List.countP_cons, Event.isRecycleOf, Event.isRecycle, Event.isStdinPipe,
            Event.isStdoutPipe, Event.isShell]
        · intro o e ho hs
          rw [ho, hs]
          simp [FailedRecycled, NotAttempted, Connect.finish, hc, calls_append, hpty, hin, hout,
            hsh, hrc, hro]
          simp [calls, List.countP_cons, Event.isRecycleOf, Event.isRecycle, Event.isStdinPipe,
            Event.isStdoutPipe, Event.isShell]

/-- With an X11 payload the X11 block starts with the x11-req request and sends
no second request. -/
theorem invokeShell_x11_payload (env : Env) (cs : ClientSession) (sc : ServerSSHConnection)
    (wd : World) (sess : Session) (c : SSHClient) (p : List Nat)
    (hs : sc.session = some sess) (hc : sc.client = some c) (hp : cs.X11ReqPayload = some p) :
    ∃ rest, invokeShell.x11 env (some cs) sc wd =
        (Outcome.ret (), wd ++ Event.sendRequest sess "x11-req" true p :: rest) ∧
      ∀ e ∈ rest, e.isSendRequest = false ∧ e.isShellStep = false := by
  rcases hr : env.sendRequest (calls Event.isSendRequest wd) sess "x11-req" true p with ⟨ok, err⟩
  cases err with
  | some e =>
    exact ⟨[Event.logErrorf "handle x11 failed, err: %s"],
      by simp [invokeShell.x11, HandleX11Proxy, hp, hs, hr],
      by simp [Event.isSendRequest, Event.isShellStep, Event.isRequestPty, Event.isStdinPipe,
        Event.isStdoutPipe, Event.isShell]⟩
  | none =>
    cases ok with
    | false =>
      exact ⟨[Event.logErrorf "handle x11 failed, err: %s"],
        by simp [invokeShell.x11, HandleX11Proxy, hp, hs, hr],
        by simp [Event.isSendRequest, Event.isShellStep, Event.isRequestPty, Event.isStdinPipe,
          Event.isStdoutPipe, Event.isShell]⟩
    | true =>
      exact ⟨[Event.handleChannelOpen c "x11", Event.goX11Listener c],
        by simp [invokeShell.x11, HandleX11Proxy, hp, hs, hr, hc],
        by simp [Event.isSendRequest, Event.isShellStep, Event.isRequestPty, Event.isStdinPipe,
          Event.isStdoutPipe, Event.isShell]⟩

/-- Whatever the steps answer, the trace left by the PTY / pipes / shell steps
and the last lines of Connect starts with the PTY request and holds no request
sent with SendRequest. -/
theorem Connect_finish_start_trace (env : Env) (sess : Session) (h w : Int) (term : String)
    (sc : ServerSSHConnection) (wd : World) :
    ∃ more, (Connect.finish (invokeShell.start env sess h w term sc wd)).2.2 =
        wd ++ Event.requestPty sess term h w modes :: more ∧
      ∀ e ∈ more, e.isSendRequest = false := by
  rw [invokeShell_start_eq]
  cases env.requestPty (calls Event.isRequestPty wd) sess term h w modes with
  | some e => exact ⟨_, by simp [Connect.finish]; rfl, by simp [Event.isSendRequest]⟩
  | none =>
    cases env.stdinPipe (calls Event.isStdinPipe wd) sess with
    | error e => exact ⟨_, by simp [Connect.finish]; rfl, by simp [Event.isSendRequest]⟩
    | ok i =>
      cases env.stdoutPipe (calls Event.isStdoutPipe wd) sess with
      | error e => exact ⟨_, by simp [Connect.finish]; rfl, by simp [Event.isSendRequest]⟩
      | ok o =>
        cases env.shell (calls Event.isShell wd) sess with
        | some e => exact ⟨_, by simp [Connect.finish]; rfl, by simp [Event.isSendRequest]⟩
        | none => exact ⟨_, by simp [Connect.finish]; rfl, by simp [Event.isSendRequest]⟩

/-- Ordering of the requests of a Connect on a bridge holding `c`. -/
theorem Connect_held_x11_before_pty (env : Env) (cs : ClientSession) (h w : Int)
    (term : String) (sc : ServerSSHConnection) (wd : World) (c : SSHClient) (sess : Session)
    (p : List Nat) (hc : sc.client = some c)
    (hn : env.newSession (calls Event.isNewSession wd) c = Except.ok sess)
    (hp : cs.X11ReqPayload = some p) :
    ∃ post, (Connect env (some cs) h w term sc wd).2.2 =
        wd ++ [Event.newSession c] ++ Event.sendRequest sess "x11-req" true p :: post ∧
      (∀ e ∈ post, e.isSendRequest = false) ∧
      Event.requestPty sess term h w modes ∈ post := by
  obtain ⟨xs, -, hx, hC⟩ := Connect_held_session_ok env (some cs) h w term sc wd c sess hc hn
  obtain ⟨rest, hx2, hrest⟩ := invokeShell_x11_payload env cs { sc with session := some sess }
    (wd ++ [Event.newSession c]) sess c p rfl hc hp
  have hxs : xs = Event.sendRequest sess "x11-req" true p :: rest := by
    rw [hx] at hx2
    exact List.append_cancel_left (congrArg Prod.snd hx2)
  obtain ⟨more, hm, hmore⟩ := Connect_finish_start_trace env sess h w term
    { sc with session := some sess } (wd ++ [Event.newSession c] ++ xs)
  refine ⟨rest ++ Event.requestPty sess term h w modes :: more, ?_, ?_, ?_⟩
  · rw [hC, hm, hxs]
    simp
  · intro e he
    rcases List.mem_append.mp he with h1 | h1
    · exact (hrest e h1).1
    · rcases List.mem_cons.mp h1 with h2 | h2
      · rw [h2]; rfl
      · exact hmore e h2
  · simp

theorem filter_obs (p : Event → Bool) (wd : World) (hp : ∀ e, e.isX11 = true → p e = false) :
    (obs wd).filter p = wd.filter p := by
  induction wd with
  | nil => rfl
  | cons e t ih =>
    unfold obs at *
    by_cases hx : e.isX11 = true
    · simp [List.filter_cons, hx, hp e hx, ih]
    · simp [List.filter_cons, hx, ih]

/-- The PTY / pipes / shell steps and the last lines of Connect do not look at
the X11 events of the trace they start from. -/
theorem Connect_finish_start_obs (env : Env) (sess : Session) (h w : Int) (term : String)
    (sc : ServerSSHConnection) (wd wd2 : World) (ho : obs wd = obs wd2) :
    (Connect.finish (invokeShell.start env sess h w term sc wd)).1 =
      (Connect.finish (invokeShell.start env sess h w term sc wd2)).1 ∧
    (Connect.finish (invokeShell.start env sess h w term sc wd)).2.1 =
      (Connect.finish (invokeShell.start env sess h w term sc wd2)).2.1 ∧
    obs (Connect.finish (invokeShell.start env sess h w term sc wd)).2.2 =
      obs (Connect.finish (invokeShell.start env sess h w term sc wd2)).2.2 := by
  have hcount : ∀ p : Event → Bool, (∀ e, e.isX11 = true → p e = false) →
      calls p wd = calls p wd2 := by
    intro p hp
    rw [← calls_obs p wd hp, ← calls_obs p wd2 hp, ho]
  rw [invokeShell_start_eq, invokeShell_start_eq,
    hcount Event.isRequestPty (by intro e; cases e <;> simp [Event.isX11, Event.isRequestPty]),
    hcount Event.isStdinPipe (by intro e; cases e <;> simp [Event.isX11, Event.isStdinPipe]),
    hcount Event.isStdoutPipe (by intro e; cases e <;> simp [Event.isX11, Event.isStdoutPipe]),
    hcount Event.isShell (by intro e; cases e <;> simp [Event.isX11, Event.isShell])]
  cases env.requestPty (calls Event.isRequestPty wd2) sess term h w modes with
  | some e => simp [Connect.finish, obs_append, ho]
  | none =>
    cases env.stdinPipe (calls Event.isStdinPipe wd2) sess with
    | error e => simp [Connect.finish, obs_append, ho]
    | ok i =>
      cases env.stdoutPipe (calls Event.isStdoutPipe wd2) sess with
      | error e => simp [Connect.finish, obs_append, ho]
      | ok o =>
        cases env.shell (calls Event.isShell wd2) sess with
        | some e => simp [Connect.finish, obs_append, ho]
        | none => simp [Connect.finish, obs_append, ho]

/-- Two runs of Connect on a bridge holding a handle, with collaborators that
differ only in the answer to x11-req. -/
theorem Connect_held_x11_insensitive (env : Env)
    (f : Nat → Session → String → Bool → List Nat → Bool × Option Err)
    (clientSess : Option ClientSession) (h w : Int) (term : String)
    (sc : ServerSSHConnection) (wd : World) (c : SSHClient) (hc : sc.client = some c) :
    (Connect env clientSess h w term sc wd).1 =
      (Connect { env with sendRequest := f } clientSess h w term sc wd).1 ∧
    (Connect env clientSess h w term sc wd).2.1 =
      (Connect { env with sendRequest := f } clientSess h w term sc wd).2.1 ∧
    obs (Connect env clientSess h w term sc wd).2.2 =
      obs (Connect { env with sendRequest := f } clientSess h w term sc wd).2.2 := by
  cases hn : env.newSession (calls Event.isNewSession wd) c with
  | error e =>
    rw [Connect_held_session_error env clientSess h w term sc wd c e hc hn,
      Connect_held_session_error { env with sendRequest := f } clientSess h w term sc wd c e hc hn]
    exact ⟨rfl, rfl, rfl⟩
  | ok sess =>
    obtain ⟨xs, hxs, -, hC⟩ := Connect_held_session_ok env clientSess h w term sc wd c sess hc hn
    obtain ⟨ys, hys, -, hD⟩ := Connect_held_session_ok { env with sendRequest := f } clientSess
      h w term sc wd c sess hc hn
    rw [hC, hD]
    have ho : obs (wd ++ [Event.newSession c] ++ xs) = obs (wd ++ [Event.newSession c] ++ ys) := by
      rw [obs_append, obs_append _ ys, obs_x11_only xs hxs, obs_x11_only ys hys]
    exact Connect_finish_start_obs env sess h w term { sc with session := some sess } _ _ ho

/-- A rejected x11-req: the X11 block sends the request and logs the error. -/
theorem invokeShell_x11_rejected (env : Env) (cs : ClientSession) (sc : ServerSSHConnection)
    (wd : World) (sess : Session) (p : List Nat) (ok : Bool) (err : Option Err)
    (hs : sc.session = some sess) (hp : cs.X11ReqPayload = some p)
    (hr : env.sendRequest (calls Event.isSendRequest wd) sess "x11-req" true p = (ok, err))
    (hrej : ¬ (ok = true ∧ err = none)) :
    invokeShell.x11 env (some cs) sc wd =
      (Outcome.ret (), wd ++ [Event.sendRequest sess "x11-req" true p,
        Event.logErrorf "handle x11 failed, err: %s"]) := by
  cases err with
  | some e => simp [invokeShell.x11, HandleX11Proxy, hp, hs, hr]
  | none =>
    cases ok with
    | false => simp [invokeShell.x11, HandleX11Proxy, hp, hs, hr]
    | true => exact absurd ⟨rfl, rfl⟩ hrej

/-- Connect on a bridge holding a handle, x11-req rejected, every later stage fine. -/
theorem Connect_held_x11_rejected (env : Env) (cs : ClientSession) (h w : Int) (term : String)
    (sc : ServerSSHConnection) (wd : World) (c : SSHClient) (sess : Session) (p : List Nat)
    (ok : Bool) (err : Option Err) (i o : Pipe)
    (hc : sc.client = some c)
    (hn : env.newSession (calls Event.isNewSession wd) c = Except.ok sess)
    (hp : cs.X11ReqPayload = some p)
    (hr : env.sendRequest (calls Event.isSendRequest wd) sess "x11-req" true p = (ok, err))
    (hrej : ¬ (ok = true ∧ err = none))
    (hpty : env.requestPty (calls Event.isRequestPty wd) sess term h w modes = none)
    (hin : env.stdinPipe (calls Event.isStdinPipe wd) sess = Except.ok i)
    (hout : env.stdoutPipe (calls Event.isStdoutPipe wd) sess = Except.ok o)
    (hsh : env.shell (calls Event.isShell wd) sess = none) :
    Connect env (some cs) h w term sc wd =
      (Outcome.ret none, { sc with session := some sess, stdin := some i, stdout := some o },
        wd ++ [Event.newSession c, Event.sendRequest sess "x11-req" true p,
          Event.logErrorf "handle x11 failed, err: %s",
          Event.requestPty sess term h w modes, Event.stdinPipe sess, Event.stdoutPipe sess,
          Event.shell sess,
          Event.logInfof "SSH client %p start ssh shell session success"]) := by
  obtain ⟨xs, -, hx, hC⟩ := Connect_held_session_ok env (some cs) h w term sc wd c sess hc hn
  have hr2 : env.sendRequest (calls Event.isSendRequest (wd ++ [Event.newSession c])) sess
      "x11-req" true p = (ok, err) := by
    rw [← hr]
    simp [calls, List.countP_append, List.countP_cons, Event.isSendRequest]
  have hx2 := invokeShell_x11_rejected env cs { sc with session := some sess }
    (wd ++ [Event.newSession c]) sess p ok err rfl hp hr2 hrej
  have hxs : xs = [Event.sendRequest sess "x11-req" true p,
      Event.logErrorf "handle x11 failed, err: %s"] := by
    rw [hx] at hx2
    exact List.append_cancel_left (congrArg Prod.snd hx2)
  rw [hC, invokeShell_start_eq, hxs]
  simp only [calls, List.countP_append, List.countP_cons, List.countP_nil, Event.isRequestPty,
    Event.isStdinPipe, Event.isStdoutPipe, Event.isShell, Bool.false_eq_true, if_false,
    Nat.add_zero]
  simp only [calls] at hpty hin hout hsh
  rw [hpty, hin, hout, hsh]
  simp [Connect.finish]

/-- Connect on a bridge without a handle, when the pool answers with an error. -/
theorem Connect_not_obtained (env : Env) (clientSess : Option ClientSession) (h w : Int)
    (term : String) (sc : ServerSSHConnection) (wd : World) (e : Err)
    (hnil : sc.client = none)
    (herr : env.newClient (calls Event.isNewClient wd) sc.User sc.Asset sc.SystemUser
      (Timeout sc).1 sc.ReuseConnection = Except.error e) :
    Connect env clientSess h w term sc wd =
      (Outcome.ret (some e), { (Timeout sc).2 with client := none },
        wd ++ [Event.newClient sc.User sc.Asset sc.SystemUser (Timeout sc).1 sc.ReuseConnection,
               Event.logErrorf "New SSH client err: %s"]) := by
  simp [Connect, hnil, herr]

/-- The PTY / pipes / shell steps leave the handle, the session and the guard alone. -/
theorem invokeShell_start_fields (env : Env) (sess : Session) (h w : Int) (term : String)
    (sc : ServerSSHConnection) (wd : World) :
    (invokeShell.start env sess h w term sc wd).2.1.client = sc.client ∧
    (invokeShell.start env sess h w term sc wd).2.1.session = sc.session ∧
    (invokeShell.start env sess h w term sc wd).2.1.CloseOnce = sc.CloseOnce := by
  rw [invokeShell_start_eq]
  cases env.requestPty (calls Event.isRequestPty wd) sess term h w modes with
  | some e => exact ⟨rfl, rfl, rfl⟩
  | none =>
    cases env.stdinPipe (calls Event.isStdinPipe wd) sess with
    | error e => exact ⟨rfl, rfl, rfl⟩
    | ok i =>
      cases env.stdoutPipe (calls Event.isStdoutPipe wd) sess with
      | error e => exact ⟨rfl, rfl, rfl⟩
      | ok o => exact ⟨rfl, rfl, rfl⟩

theorem Connect_finish_fields (r : Option Err × ServerSSHConnection × World) :
    (Connect.finish r).2.1 = r.2.1 ∧ ((Connect.finish r).1 = Outcome.ret none → r.1 = none) := by
  rcases r with ⟨_ | e, sc, wd⟩ <;> simp [Connect.finish]

/-- A bridge on which Connect returned nil holds a handle and an open session. -/
theorem Connect_success_fields (env : Env) (clientSess : Option ClientSession) (h w : Int)
    (term : String) (sc0 sc : ServerSSHConnection) (wd0 wd : World)
    (hconn : Connect env clientSess h w term sc0 wd0 = (Outcome.ret none, sc, wd)) :
    ∃ c sess, sc.client = some c ∧ sc.session = some sess := by
  have held : ∀ (s : ServerSSHConnection) (w0 : World) (c : SSHClient), s.client = some c →
      Connect env clientSess h w term s w0 = (Outcome.ret none, sc, wd) →
      ∃ c sess, sc.client = some c ∧ sc.session = some sess := by
    intro s w0 c hc hC
    cases hn : env.newSession (calls Event.isNewSession w0) c with
    | error e =>
      rw [Connect_held_session_error env clientSess h w term s w0 c e hc hn] at hC
      simp at hC
    | ok sess =>
      obtain ⟨xs, -, -, hD⟩ := Connect_held_session_ok env clientSess h w term s w0 c sess hc hn
      rw [hD] at hC
      have hf := (Connect_finish_fields (invokeShell.start env sess h w term
        { s with session := some sess } (w0 ++ [Event.newSession c] ++ xs))).1
      have hs := invokeShell_start_fields env sess h w term { s with session := some sess }
        (w0 ++ [Event.newSession c] ++ xs)
      rw [hC] at hf
      simp only at hf
      refine ⟨c, sess, ?_, ?_⟩
      · rw [hf, hs.1]; exact hc
      · rw [hf, hs.2.1]
  cases hcl : sc0.client with
  | some c => exact held sc0 wd0 c hcl hconn
  | none =>
    cases hnc : env.newClient (calls Event.isNewClient wd0) sc0.User sc0.Asset sc0.SystemUser
        (Timeout sc0).1 sc0.ReuseConnection with
    | error e =>
      rw [Connect_not_obtained env clientSess h w term sc0 wd0 e hcl hnc] at hconn
      simp at hconn
    | ok c =>
      rw [Connect_obtained env clientSess h w term sc0 wd0 c hcl hnc] at hconn
      exact held _ _ c rfl hconn

/-- Close, repeated on a bridge whose guard has fired: only session closes. -/
theorem closeTimes_fired (env : Env) (n : Nat) (sc : ServerSSHConnection) (sess : Session) :
    ∀ wd : World, sc.CloseOnce = some true → sc.session = some sess →
    closeTimes env n sc wd =
      ((List.range n).map
          (fun k => Outcome.ret (env.sessionClose (calls Event.isSessionClose wd + k) sess)),
        sc, wd ++ List.replicate n (Event.sessionClose sess)) := by
  induction n with
  | zero => intro wd _ _; simp [closeTimes]
  | succ n ih =>
    intro wd hf hs
    have hC : Close env sc wd =
        (Outcome.ret (env.sessionClose (calls Event.isSessionClose wd) sess), sc,
          wd ++ [Event.sessionClose sess]) := by
      cases sc
      simp only at hf hs
      subst hf hs
      simp [Close]
    simp only [closeTimes, hC]
    rw [ih (wd ++ [Event.sessionClose sess]) hf hs, List.range_succ_eq_map]
    simp [calls, List.countP_append, List.countP_cons, Event.isSessionClose,
      List.replicate_succ, Function.comp_def, Nat.add_assoc, Nat.add_comm 1]

/-! ## Timeout -/

/-- C10: Timeout returns the configured Overtime when it is non-zero and 30
seconds when it is zero; it changes no field but Overtime, which afterwards
equals the returned value; every later call returns the same value and leaves
the bridge as it is; the returned value is never zero. -/
theorem Timeout_lazy_default (sc : ServerSSHConnection) :
    (Timeout sc).1 = (if sc.Overtime = 0 then 30 * Second else sc.Overtime) ∧
    (Timeout sc).2 = { sc with Overtime := (Timeout sc).1 } ∧
    (∀ n : Nat, Timeout ((fun s => (Timeout s).2)^[n] (Timeout sc).2) =
      ((Timeout sc).1, (Timeout sc).2)) ∧
    (Timeout sc).1 ≠ 0 := by
  have hfix : ∀ s : ServerSSHConnection, s.Overtime ≠ 0 → Timeout s = (s.Overtime, s) := by
    intro s hs
    simp [Timeout, hs]
  have hne : (Timeout sc).1 ≠ 0 := by
    by_cases h0 : sc.Overtime = 0
    · simp [Timeout, h0, Second]
    · simp [Timeout, h0]
  have hov : (Timeout sc).2.Overtime = (Timeout sc).1 := by
    simp [Timeout]
  refine ⟨?_, ?_, ?_, hne⟩
  · by_cases h0 : sc.Overtime = 0 <;> simp [Timeout, h0]
  · by_cases h0 : sc.Overtime = 0
    · simp [Timeout, h0]
    · simp [Timeout, h0]
  · intro n
    have hit : (fun s => (Timeout s).2)^[n] (Timeout sc).2 = (Timeout sc).2 := by
      induction n with
      | zero => rfl
      | succ k ih =>
        rw [Function.iterate_succ_apply']
        rw [ih, hfix _ (by rw [hov]; exact hne)]
    rw [hit, hfix _ (by rw [hov]; exact hne), hov]

/-! ## SetWinSize -/

/-- C9 (as stated, refuted): on a fresh bridge, whose session field was never
set, SetWinSize 24 80 returns no error value; the call on the nil session
panics and nothing is forwarded. -/
theorem SetWinSize_nil_session_no_error :
    SetWinSize okEnv 24 80 freshBridge [] = (Outcome.panicked, []) ∧
    ¬ ∃ e wd, SetWinSize okEnv 24 80 freshBridge [] = (Outcome.ret (some e), wd) := by
  constructor
  · rfl
  · rintro ⟨e, wd, h⟩
    simp [SetWinSize, freshBridge] at h

/-- C9 (amended): SetWinSize makes no check of its own.  With a nil session
field it panics on the nil receiver and forwards nothing; with the session
field set it forwards exactly one window-change carrying the given height and
width on that session and returns the result of that call. -/
theorem SetWinSize_forwards (env : Env) (h w : Int) (sc : ServerSSHConnection) (wd : World) :
    (sc.session = none → SetWinSize env h w sc wd = (Outcome.panicked, wd)) ∧
    (∀ sess, sc.session = some sess →
      SetWinSize env h w sc wd =
        (Outcome.ret (env.windowChange (calls Event.isWindowChange wd) sess h w),
          wd ++ [Event.windowChange sess h w])) := by
  constructor
  · intro hs
    simp [SetWinSize, hs]
  · intro sess hs
    simp [SetWinSize, hs]

/-- Witness of C9 (amended) on a fresh bridge and on one whose session is 3. -/
theorem SetWinSize_forwards_witness :
    SetWinSize okEnv 24 80 freshBridge [] = (Outcome.panicked, []) ∧
    SetWinSize okEnv 24 80 { freshBridge with session := some 3 } [] =
      (Outcome.ret none, [Event.windowChange 3 24 80]) :=
  ⟨(SetWinSize_forwards okEnv 24 80 freshBridge []).1 rfl,
   (SetWinSize_forwards okEnv 24 80 { freshBridge with session := some 3 } []).2 3 rfl⟩

/-! ## Connect: acquisition failure -/

/-- C4: on a bridge without a handle, when NewClient answers with an error,
Connect returns that error, leaves the session, stdin and stdout fields as they
were, and its only external calls are NewClient and the error log: no session
is opened and RecycleClient is not invoked. -/
theorem Connect_acquire_error (env : Env) (clientSess : Option ClientSession) (h w : Int)
    (term : String) (sc : ServerSSHConnection) (wd : World) (e : Err)
    (hnil : sc.client = none)
    (herr : env.newClient (calls Event.isNewClient wd) sc.User sc.Asset sc.SystemUser
      (Timeout sc).1 sc.ReuseConnection = Except.error e) :
    (Connect env clientSess h w term sc wd).1 = Outcome.ret (some e) ∧
    (Connect env clientSess h w term sc wd).2.1.session = sc.session ∧
    (Connect env clientSess h w term sc wd).2.1.stdin = sc.stdin ∧
    (Connect env clientSess h w term sc wd).2.1.stdout = sc.stdout ∧
    (Connect env clientSess h w term sc wd).2.2 =
      wd ++ [Event.newClient sc.User sc.Asset sc.SystemUser (Timeout sc).1 sc.ReuseConnection,
             Event.logErrorf "New SSH client err: %s"] ∧
    calls Event.isNewSession (Connect env clientSess h w term sc wd).2.2 =
      calls Event.isNewSession wd ∧
    calls Event.isRecycle (Connect env clientSess h w term sc wd).2.2 =
      calls Event.isRecycle wd := by
  have hC := Connect_not_obtained env clientSess h w term sc wd e hnil herr
  rw [hC]
  refine ⟨rfl, ?_, ?_, ?_, rfl, ?_, ?_⟩
  · by_cases h0 : sc.Overtime = 0 <;> simp [Timeout, h0]
  · by_cases h0 : sc.Overtime = 0 <;> simp [Timeout, h0]
  · by_cases h0 : sc.Overtime = 0 <;> simp [Timeout, h0]
  · simp [calls, List.countP_append, List.countP_cons, Event.isNewSession]
  · simp [calls, List.countP_append, List.countP_cons, Event.isRecycle]

/-- Witness of C4: the pool is down, the bridge is fresh. -/
theorem Connect_acquire_error_witness :
    (Connect poolDownEnv none 24 80 "xterm" freshBridge []).1 =
      Outcome.ret (some "dial tcp: i/o timeout") ∧
    (Connect poolDownEnv none 24 80 "xterm" freshBridge []).2.1.session = none ∧
    calls Event.isRecycle (Connect poolDownEnv none 24 80 "xterm" freshBridge []).2.2 = 0 :=
  have hw := Connect_acquire_error poolDownEnv none 24 80 "xterm" freshBridge []
    "dial tcp: i/o timeout" rfl rfl
  ⟨hw.1, hw.2.1, hw.2.2.2.2.2.2⟩

/-! ## HandleX11Proxy -/

/-- C7: with a nil X11 payload HandleX11Proxy returns nil and makes no external
call at all.  With a payload, on a bridge whose session is open on a held
handle, it sends exactly one x11-req with reply wanted and that payload; if the
request is acknowledged true without error it registers the x11 channel-open
handler on the handle, starts the listener and returns nil; if it is
acknowledged false without error it returns the error x11-req failed; if the
transport reports an error it returns that error; and the handler is registered
if and only if the request was acknowledged true without error. -/
theorem HandleX11Proxy_arms_iff_acknowledged (env : Env) (clientSess : ClientSession)
    (sc : ServerSSHConnection) (wd : World) :
    (clientSess.X11ReqPayload = none →
      HandleX11Proxy env clientSess sc wd = (Outcome.ret none, wd)) ∧
    (∀ p sess c ok err, clientSess.X11ReqPayload = some p → sc.session = some sess →
      sc.client = some c →
      env.sendRequest (calls Event.isSendRequest wd) sess "x11-req" true p = (ok, err) →
      (ok = true ∧ err = none →
        HandleX11Proxy env clientSess sc wd =
          (Outcome.ret none,
            wd ++ [Event.sendRequest sess "x11-req" true p] ++
              [Event.handleChannelOpen c "x11", Event.goX11Listener c])) ∧
      (ok = false ∧ err = none →
        HandleX11Proxy env clientSess sc wd =
          (Outcome.ret (some "ssh: x11-req failed"),
            wd ++ [Event.sendRequest sess "x11-req" true p])) ∧
      (∀ e, err = some e →
        HandleX11Proxy env clientSess sc wd =
          (Outcome.ret (some e), wd ++ [Event.sendRequest sess "x11-req" true p])) ∧
      calls Event.isSendRequest (HandleX11Proxy env clientSess sc wd).2 =
        calls Event.isSendRequest wd + 1 ∧
      (calls Event.isHandleChannelOpen (HandleX11Proxy env clientSess sc wd).2 =
          calls Event.isHandleChannelOpen wd + 1 ↔ (ok = true ∧ err = none)) ∧
      (calls Event.isHandleChannelOpen (HandleX11Proxy env clientSess sc wd).2 =
          calls Event.isHandleChannelOpen wd ↔ ¬ (ok = true ∧ err = none))) := by
  constructor
  · intro hp
    simp [HandleX11Proxy, hp]
  · intro p sess c ok err hp hs hc hr
    cases err with
    | some e =>
      have hH : HandleX11Proxy env clientSess sc wd =
          (Outcome.ret (some e), wd ++ [Event.sendRequest sess "x11-req" true p]) := by
        simp [HandleX11Proxy, hp, hs, hr]
      rw [hH]
      simp [calls, List.countP_append, List.countP_cons, Event.isSendRequest,
        Event.isHandleChannelOpen]
    | none =>
      cases ok with
      | false =>
        have hH : HandleX11Proxy env clientSess sc wd =
            (Outcome.ret (some "ssh: x11-req failed"),
              wd ++ [Event.sendRequest sess "x11-req" true p]) := by
          simp [HandleX11Proxy, hp, hs, hr]
        rw [hH]
        simp [calls, List.countP_append, List.countP_cons, Event.isSendRequest,
          Event.isHandleChannelOpen]
      | true =>
        have hH : HandleX11Proxy env clientSess sc wd =
            (Outcome.ret none,
              wd ++ [Event.sendRequest sess "x11-req" true p] ++
                [Event.handleChannelOpen c "x11", Event.goX11Listener c]) := by
          simp [HandleX11Proxy, hp, hs, hr, hc]
        rw [hH]
        simp [calls, List.countP_append, List.countP_cons, Event.isSendRequest,
          Event.isHandleChannelOpen]

/-- Witness of C7: no payload; payload acknowledged; payload rejected; transport error. -/
theorem HandleX11Proxy_arms_iff_acknowledged_witness :
    HandleX11Proxy okEnv plainClient openBridge [] = (Outcome.ret none, []) ∧
    HandleX11Proxy okEnv x11Client openBridge [] =
      (Outcome.ret none,
        [Event.sendRequest 3 "x11-req" true [1, 2, 3], Event.handleChannelOpen 7 "x11",
         Event.goX11Listener 7]) ∧
    HandleX11Proxy x11RejectEnv x11Client openBridge [] =
      (Outcome.ret (some "ssh: x11-req failed"),
        [Event.sendRequest 3 "x11-req" true [1, 2, 3]]) ∧
    HandleX11Proxy x11BrokenEnv x11Client openBridge [] =
      (Outcome.ret (some "EOF"), [Event.sendRequest 3 "x11-req" true [1, 2, 3]]) :=
  ⟨(HandleX11Proxy_arms_iff_acknowledged okEnv plainClient openBridge []).1 rfl,
   ((HandleX11Proxy_arms_iff_acknowledged okEnv x11Client openBridge []).2
      [1, 2, 3] 3 7 true none rfl rfl rfl rfl).1 ⟨rfl, rfl⟩,
   ((HandleX11Proxy_arms_iff_acknowledged x11RejectEnv x11Client openBridge []).2
      [1, 2, 3] 3 7 false none rfl rfl rfl rfl).2.1 ⟨rfl, rfl⟩,
   ((HandleX11Proxy_arms_iff_acknowledged x11BrokenEnv x11Client openBridge []).2
      [1, 2, 3] 3 7 false (some "EOF") rfl rfl rfl rfl).2.2.1 "EOF" rfl⟩

/-! ## Connect: shell-setup failure -/

/-- C1: on a bridge that holds the handle c, or obtains it from the pool,
whichever shell-setup stage fails first (opening the session, the PTY request,
stdin, stdout, the shell request), Connect returns the error of that stage,
RecycleClient is called exactly once between entry and return and that call is
for c, and no later stage is attempted. -/
theorem Connect_stage_failure (env : Env) (clientSess : Option ClientSession) (h w : Int)
    (term : String) (sc : ServerSSHConnection) (wd : World) (c : SSHClient)
    (hc : sc.client = some c ∨
      (sc.client = none ∧
        env.newClient (calls Event.isNewClient wd) sc.User sc.Asset sc.SystemUser
          (Timeout sc).1 sc.ReuseConnection = Except.ok c)) :
    (∀ e, env.newSession (calls Event.isNewSession wd) c = Except.error e →
      FailedRecycled wd c e (Connect env clientSess h w term sc wd) ∧
      NotAttempted Event.isSendRequest wd (Connect env clientSess h w term sc wd) ∧
      NotAttempted Event.isShellStep wd (Connect env clientSess h w term sc wd)) ∧
    (∀ sess, env.newSession (calls Event.isNewSession wd) c = Except.ok sess →
      (∀ e, env.requestPty (calls Event.isRequestPty wd) sess term h w modes = some e →
        FailedRecycled wd c e (Connect env clientSess h w term sc wd) ∧
        NotAttempted Event.isStdinPipe wd (Connect env clientSess h w term sc wd) ∧
        NotAttempted Event.isStdoutPipe wd (Connect env clientSess h w term sc wd) ∧
        NotAttempted Event.isShell wd (Connect env clientSess h w term sc wd)) ∧
      (env.requestPty (calls Event.isRequestPty wd) sess term h w modes = none →
        (∀ e, env.stdinPipe (calls Event.isStdinPipe wd) sess = Except.error e →
          FailedRecycled wd c e (Connect env clientSess h w term sc wd) ∧
          NotAttempted Event.isStdoutPipe wd (Connect env clientSess h w term sc wd) ∧
          NotAttempted Event.isShell wd (Connect env clientSess h w term sc wd)) ∧
        (∀ i, env.stdinPipe (calls Event.isStdinPipe wd) sess = Except.ok i →
          (∀ e, env.stdoutPipe (calls Event.isStdoutPipe wd) sess = Except.error e →
            FailedRecycled wd c e (Connect env clientSess h w term sc wd) ∧
            NotAttempted Event.isShell wd (Connect env clientSess h w term sc wd)) ∧
          (∀ o e, env.stdoutPipe (calls Event.isStdoutPipe wd) sess = Except.ok o →
            env.shell (calls Event.isShell wd) sess = some e →
            FailedRecycled wd c e (Connect env clientSess h w term sc wd))))) := by
  rcases hc with hc | ⟨hnil, hok⟩
  · exact Connect_held_stage_failure env clientSess h w term sc wd c hc
  · have H := Connect_held_stage_failure env clientSess h w term
      { (Timeout sc).2 with client := some c }
      (wd ++ [Event.newClient sc.User sc.Asset sc.SystemUser (Timeout sc).1 sc.ReuseConnection])
      c rfl
    rw [← Connect_obtained env clientSess h w term sc wd c hnil hok] at H
    have k : ∀ p : Event → Bool,
        p (Event.newClient sc.User sc.Asset sc.SystemUser (Timeout sc).1 sc.ReuseConnection)
          = false →
        calls p (wd ++ [Event.newClient sc.User sc.Asset sc.SystemUser (Timeout sc).1
          sc.ReuseConnection]) = calls p wd := by
      intro p hp
      simp [calls, List.countP_append, List.countP_cons, hp]
    simpa only [FailedRecycled, NotAttempted, k Event.isNewSession rfl, k Event.isRequestPty rfl,
      k Event.isStdinPipe rfl, k Event.isStdoutPipe rfl, k Event.isShell rfl,
      k Event.isRecycle rfl, k (Event.isRecycleOf c) rfl, k Event.isSendRequest rfl,
      k Event.isShellStep rfl] using H

/-- Witness of C1: one failing stage after the other on a bridge holding handle
7, and a shell failure on a fresh bridge that obtains handle 7 from the pool. -/
theorem Connect_stage_failure_witness :
    FailedRecycled [] 7 "ssh: open failed"
      (Connect sessionFailEnv (some plainClient) 24 80 "xterm" heldBridge []) ∧
    FailedRecycled [] 7 "ssh: pty-req failed"
      (Connect ptyFailEnv (some x11Client) 24 80 "xterm" heldBridge []) ∧
    FailedRecycled [] 7 "ssh: Stdin already set"
      (Connect stdinFailEnv (some plainClient) 24 80 "xterm" heldBridge []) ∧
    FailedRecycled [] 7 "ssh: Stdout already set"
      (Connect stdoutFailEnv (some plainClient) 24 80 "xterm" heldBridge []) ∧
    FailedRecycled [] 7 "ssh: could not start shell"
      (Connect shellFailEnv none 24 80 "xterm" heldBridge []) ∧
    FailedRecycled [] 7 "ssh: could not start shell"
      (Connect shellFailEnv (some x11Client) 24 80 "xterm" freshBridge []) :=
  ⟨((Connect_stage_failure sessionFailEnv (some plainClient) 24 80 "xterm" heldBridge [] 7
      (Or.inl rfl)).1 "ssh: open failed" rfl).1,
   (((Connect_stage_failure ptyFailEnv (some x11Client) 24 80 "xterm" heldBridge [] 7
      (Or.inl rfl)).2 3 rfl).1 "ssh: pty-req failed" rfl).1,
   ((((Connect_stage_failure stdinFailEnv (some plainClient) 24 80 "xterm" heldBridge [] 7
      (Or.inl rfl)).2 3 rfl).2 rfl).1 "ssh: Stdin already set" rfl).1,
   (((((Connect_stage_failure stdoutFailEnv (some plainClient) 24 80 "xterm" heldBridge [] 7
      (Or.inl rfl)).2 3 rfl).2 rfl).2 10 rfl).1 "ssh: Stdout already set" rfl).1,
   ((((Connect_stage_failure shellFailEnv none 24 80 "xterm" heldBridge [] 7
      (Or.inl rfl)).2 3 rfl).2 rfl).2 10 rfl).2 11 "ssh: could not start shell" rfl rfl,
   ((((Connect_stage_failure shellFailEnv (some x11Client) 24 80 "xterm" freshBridge [] 7
      (Or.inr ⟨rfl, rfl⟩)).2 3 rfl).2 rfl).2 10 rfl).2 11 "ssh: could not start shell" rfl rfl⟩

/-! ## Connect: request ordering -/

/-- C5: when the client session carries an X11 payload and the upstream
session opens, the trace of Connect reads: calls that are neither a PTY / pipe
/ shell step nor a request, then the x11-req request with that payload on the
new session, then a remainder that contains the PTY request and no further
SendRequest.  So x11-req is sent strictly before the PTY request and before
every other shell-setup step on that session. -/
theorem Connect_x11_before_pty (env : Env) (cs : ClientSession) (h w : Int)
    (term : String) (sc : ServerSSHConnection) (wd : World) (c : SSHClient) (sess : Session)
    (p : List Nat)
    (hc : sc.client = some c ∨
      (sc.client = none ∧
        env.newClient (calls Event.isNewClient wd) sc.User sc.Asset sc.SystemUser
          (Timeout sc).1 sc.ReuseConnection = Except.ok c))
    (hn : env.newSession (calls Event.isNewSession wd) c = Except.ok sess)
    (hp : cs.X11ReqPayload = some p) :
    ∃ pre post, (Connect env (some cs) h w term sc wd).2.2 =
        wd ++ pre ++ Event.sendRequest sess "x11-req" true p :: post ∧
      (∀ e ∈ pre, e.isShellStep = false ∧ e.isSendRequest = false) ∧
      (∀ e ∈ post, e.isSendRequest = false) ∧
      Event.requestPty sess term h w modes ∈ post := by
  rcases hc with hc | ⟨hnil, hok⟩
  · obtain ⟨post, h1, h2, h3⟩ :=
      Connect_held_x11_before_pty env cs h w term sc wd c sess p hc hn hp
    refine ⟨[Event.newSession c], post, h1, ?_, h2, h3⟩
    simp [Event.isShellStep, Event.isRequestPty, Event.isStdinPipe, Event.isStdoutPipe,
      Event.isShell, Event.isSendRequest]
  · have hn2 : env.newSession (calls Event.isNewSession
        (wd ++ [Event.newClient sc.User sc.Asset sc.SystemUser (Timeout sc).1
          sc.ReuseConnection])) c = Except.ok sess := by
      rw [← hn]
      simp [calls, List.countP_append, List.countP_cons, Event.isNewSession]
    obtain ⟨post, h1, h2, h3⟩ :=
      Connect_held_x11_before_pty env cs h w term { (Timeout sc).2 with client := some c }
        (wd ++ [Event.newClient sc.User sc.Asset sc.SystemUser (Timeout sc).1
          sc.ReuseConnection]) c sess p rfl hn2 hp
    rw [← Connect_obtained env (some cs) h w term sc wd c hnil hok] at h1
    refine ⟨[Event.newClient sc.User sc.Asset sc.SystemUser (Timeout sc).1 sc.ReuseConnection,
      Event.newSession c], post, ?_, ?_, h2, h3⟩
    · rw [h1]
      simp
    · simp [Event.isShellStep, Event.isRequestPty, Event.isStdinPipe, Event.isStdoutPipe,
        Event.isShell, Event.isSendRequest]

/-- Witness of C5: a fresh bridge, every collaborator answering with success. -/
theorem Connect_x11_before_pty_witness :
    ∃ pre post, (Connect okEnv (some x11Client) 24 80 "xterm" freshBridge []).2.2 =
        [] ++ pre ++ Event.sendRequest 3 "x11-req" true [1, 2, 3] :: post ∧
      (∀ e ∈ pre, e.isShellStep = false ∧ e.isSendRequest = false) ∧
      (∀ e ∈ post, e.isSendRequest = false) ∧
      Event.requestPty 3 "xterm" 24 80 modes ∈ post :=
  Connect_x11_before_pty okEnv x11Client 24 80 "xterm" freshBridge [] 7 3 [1, 2, 3]
    (Or.inr ⟨rfl, rfl⟩) rfl rfl

/-! ## Connect: X11 arming failure -/

/-- C6: take two runs of Connect from the same bridge and trace whose
collaborators differ only in how x11-req is answered, so that HandleX11Proxy
may return nil in one run and an error in the other.  Both runs return the same
value, leave the same bridge, make the same sequence of PTY / stdin / stdout /
shell calls and the same number of RecycleClient calls.  In particular, when
x11-req is rejected (not acknowledged true without error) and the PTY request,
both pipes and the shell request succeed, Connect returns nil, RecycleClient is
not invoked, no handler is registered, the failure is logged and the shell is
started. -/
theorem Connect_x11_failure_nonfatal (env : Env)
    (f : Nat → Session → String → Bool → List Nat → Bool × Option Err)
    (clientSess : Option ClientSession) (h w : Int) (term : String)
    (sc : ServerSSHConnection) (wd : World) :
    ((Connect env clientSess h w term sc wd).1 =
        (Connect { env with sendRequest := f } clientSess h w term sc wd).1 ∧
      (Connect env clientSess h w term sc wd).2.1 =
        (Connect { env with sendRequest := f } clientSess h w term sc wd).2.1 ∧
      (Connect env clientSess h w term sc wd).2.2.filter Event.isShellStep =
        (Connect { env with sendRequest := f } clientSess h w term sc wd).2.2.filter
          Event.isShellStep ∧
      calls Event.isRecycle (Connect env clientSess h w term sc wd).2.2 =
        calls Event.isRecycle
          (Connect { env with sendRequest := f } clientSess h w term sc wd).2.2) ∧
    (∀ cs c sess p ok err i o, clientSess = some cs →
      (sc.client = some c ∨
        (sc.client = none ∧
          env.newClient (calls Event.isNewClient wd) sc.User sc.Asset sc.SystemUser
            (Timeout sc).1 sc.ReuseConnection = Except.ok c)) →
      env.newSession (calls Event.isNewSession wd) c = Except.ok sess →
      cs.X11ReqPayload = some p →
      env.sendRequest (calls Event.isSendRequest wd) sess "x11-req" true p = (ok, err) →
      ¬ (ok = true ∧ err = none) →
      env.requestPty (calls Event.isRequestPty wd) sess term h w modes = none →
      env.stdinPipe (calls Event.isStdinPipe wd) sess = Except.ok i →
      env.stdoutPipe (calls Event.isStdoutPipe wd) sess = Except.ok o →
      env.shell (calls Event.isShell wd) sess = none →
      (Connect env clientSess h w term sc wd).1 = Outcome.ret none ∧
      calls Event.isRecycle (Connect env clientSess h w term sc wd).2.2 =
        calls Event.isRecycle wd ∧
      calls Event.isHandleChannelOpen (Connect env clientSess h w term sc wd).2.2 =
        calls Event.isHandleChannelOpen wd ∧
      calls Event.isShell (Connect env clientSess h w term sc wd).2.2 =
        calls Event.isShell wd + 1 ∧
      Event.logErrorf "handle x11 failed, err: %s" ∈
        (Connect env clientSess h w term sc wd).2.2) := by
  constructor
  · have key : (Connect env clientSess h w term sc wd).1 =
          (Connect { env with sendRequest := f } clientSess h w term sc wd).1 ∧
        (Connect env clientSess h w term sc wd).2.1 =
          (Connect { env with sendRequest := f } clientSess h w term sc wd).2.1 ∧
        obs (Connect env clientSess h w term sc wd).2.2 =
          obs (Connect { env with sendRequest := f } clientSess h w term sc wd).2.2 := by
      cases hcl : sc.client with
      | some c => exact Connect_held_x11_insensitive env f clientSess h w term sc wd c hcl
      | none =>
        cases hnc : env.newClient (calls Event.isNewClient wd) sc.User sc.Asset sc.SystemUser
            (Timeout sc).1 sc.ReuseConnection with
        | error e =>
          rw [Connect_not_obtained env clientSess h w term sc wd e hcl hnc,
            Connect_not_obtained { env with sendRequest := f } clientSess h w term sc wd e hcl
              hnc]
          exact ⟨rfl, rfl, rfl⟩
        | ok c =>
          rw [Connect_obtained env clientSess h w term sc wd c hcl hnc,
            Connect_obtained { env with sendRequest := f } clientSess h w term sc wd c hcl hnc]
          exact Connect_held_x11_insensitive env f clientSess h w term _ _ c rfl
    obtain ⟨k1, k2, k3⟩ := key
    refine ⟨k1, k2, ?_, ?_⟩
    · rw [← filter_obs Event.isShellStep _ (by
        intro e; cases e <;> simp [Event.isX11, Event.isShellStep, Event.isRequestPty,
          Event.isStdinPipe, Event.isStdoutPipe, Event.isShell]), k3]
      exact filter_obs Event.isShellStep _ (by
        intro e; cases e <;> simp [Event.isX11, Event.isShellStep, Event.isRequestPty,
          Event.isStdinPipe, Event.isStdoutPipe, Event.isShell])
    · rw [← calls_obs Event.isRecycle _ (by
        intro e; cases e <;> simp [Event.isX11, Event.isRecycle]), k3]
      exact calls_obs Event.isRecycle _ (by
        intro e; cases e <;> simp [Event.isX11, Event.isRecycle])
  · intro cs c sess p ok err i o hcs hc hn hp hr hrej hpty hin hout hsh
    subst hcs
    rcases hc with hc | ⟨hnil, hok⟩
    · rw [Connect_held_x11_rejected env cs h w term sc wd c sess p ok err i o hc hn hp hr hrej
        hpty hin hout hsh]
      simp [calls, List.countP_append, List.countP_cons, Event.isRecycle,
        Event.isHandleChannelOpen, Event.isShell]
    · have k : ∀ q : Event → Bool,
          q (Event.newClient sc.User sc.Asset sc.SystemUser (Timeout sc).1 sc.ReuseConnection)
            = false →
          calls q (wd ++ [Event.newClient sc.User sc.Asset sc.SystemUser (Timeout sc).1
            sc.ReuseConnection]) = calls q wd := by
        intro q hq
        simp [calls, List.countP_append, List.countP_cons, hq]
      rw [Connect_obtained env (some cs) h w term sc wd c hnil hok,
        Connect_held_x11_rejected env cs h w term { (Timeout sc).2 with client := some c }
          (wd ++ [Event.newClient sc.User sc.Asset sc.SystemUser (Timeout sc).1
            sc.ReuseConnection]) c sess p ok err i o rfl
          (by rw [k Event.isNewSession rfl]; exact hn) hp
          (by rw [k Event.isSendRequest rfl]; exact hr) hrej
          (by rw [k Event.isRequestPty rfl]; exact hpty)
          (by rw [k Event.isStdinPipe rfl]; exact hin)
          (by rw [k Event.isStdoutPipe rfl]; exact hout)
          (by rw [k Event.isShell rfl]; exact hsh)]
      simp [calls, List.countP_append, List.countP_cons, Event.isRecycle,
        Event.isHandleChannelOpen, Event.isShell]

/-- Witness of C6: x11-req acknowledged false on a fresh bridge, all later
stages succeeding. -/
theorem Connect_x11_failure_nonfatal_witness :
    (Connect x11RejectEnv (some x11Client) 24 80 "xterm" freshBridge []).1 = Outcome.ret none ∧
    calls Event.isRecycle
      (Connect x11RejectEnv (some x11Client) 24 80 "xterm" freshBridge []).2.2 = 0 :=
  have hw := (Connect_x11_failure_nonfatal x11RejectEnv okEnv.sendRequest (some x11Client) 24 80
    "xterm" freshBridge []).2 x11Client 7 3 [1, 2, 3] false none 10 11 rfl (Or.inr ⟨rfl, rfl⟩)
    rfl rfl rfl (by simp) rfl rfl rfl rfl
  ⟨hw.1, hw.2.1⟩

/-! ## Close -/

/-- C2: on a bridge on which Connect returned nil and whose close-once guard
has not fired, N calls of Close (N at least 1) invoke RecycleClient exactly
once in total, for the held handle, and that call is made by the first Close;
every one of the N calls closes the upstream session and returns the result of
its own session close. -/
theorem Close_recycles_once (env : Env) (clientSess : Option ClientSession) (h w : Int)
    (term : String) (sc0 sc : ServerSSHConnection) (wd0 wd : World) (N : Nat)
    (hconn : Connect env clientSess h w term sc0 wd0 = (Outcome.ret none, sc, wd))
    (hfresh : sc.CloseOnce = some false) (hN : 1 ≤ N) :
    ∃ c sess, sc.client = some c ∧ sc.session = some sess ∧
      (closeTimes env N sc wd).1 =
        (List.range N).map
          (fun k => Outcome.ret (env.sessionClose (calls Event.isSessionClose wd + k) sess)) ∧
      (closeTimes env N sc wd).2.2 =
        wd ++ Event.recycleClient (some c) :: List.replicate N (Event.sessionClose sess) ∧
      calls Event.isRecycle (closeTimes env N sc wd).2.2 = calls Event.isRecycle wd + 1 ∧
      calls Event.isSessionClose (closeTimes env N sc wd).2.2 =
        calls Event.isSessionClose wd + N ∧
      (Close env sc wd).2.2 = wd ++ [Event.recycleClient (some c), Event.sessionClose sess] := by
  obtain ⟨c, sess, hc, hs⟩ := Connect_success_fields env clientSess h w term sc0 sc wd0 wd hconn
  obtain ⟨n, rfl⟩ : ∃ n, N = n + 1 := ⟨N - 1, by omega⟩
  have hC : Close env sc wd =
      (Outcome.ret (env.sessionClose (calls Event.isSessionClose wd) sess),
        { sc with CloseOnce := some true },
        wd ++ [Event.recycleClient (some c), Event.sessionClose sess]) := by
    simp [Close, hfresh, hs, hc, calls, List.countP_append, List.countP_cons,
      Event.isSessionClose]
  have hT : closeTimes env (n + 1) sc wd =
      ((List.range (n + 1)).map
          (fun k => Outcome.ret (env.sessionClose (calls Event.isSessionClose wd + k) sess)),
        { sc with CloseOnce := some true },
        wd ++ Event.recycleClient (some c) :: List.replicate (n + 1) (Event.sessionClose sess)) := by
    simp only [closeTimes, hC]
    rw [closeTimes_fired env n { sc with CloseOnce := some true } sess _ rfl hs,
      List.range_succ_eq_map]
    simp [calls, List.countP_append, List.countP_cons, Event.isSessionClose,
      List.replicate_succ, Function.comp_def, Nat.add_assoc, Nat.add_comm 1]
  refine ⟨c, sess, hc, hs, ?_, ?_, ?_, ?_, ?_⟩
  · rw [hT]
  · rw [hT]
  · rw [hT]
    simp [calls, List.countP_append, List.countP_cons, Event.isRecycle, List.countP_replicate]
  · rw [hT]
    simp [calls, List.countP_append, List.countP_cons, Event.isSessionClose,
      List.countP_replicate]
  · rw [hC]

/-- Witness of C2: three Close calls after a successful Connect on a held handle. -/
theorem Close_recycles_once_witness :
    ∃ c sess, connectedBridge.client = some c ∧ connectedBridge.session = some sess ∧
      (closeTimes okEnv 3 connectedBridge connectedWorld).1 =
        (List.range 3).map
          (fun k => Outcome.ret
            (okEnv.sessionClose (calls Event.isSessionClose connectedWorld + k) sess)) ∧
      (closeTimes okEnv 3 connectedBridge connectedWorld).2.2 =
        connectedWorld ++ Event.recycleClient (some c) ::
          List.replicate 3 (Event.sessionClose sess) ∧
      calls Event.isRecycle (closeTimes okEnv 3 connectedBridge connectedWorld).2.2 =
        calls Event.isRecycle connectedWorld + 1 ∧
      calls Event.isSessionClose (closeTimes okEnv 3 connectedBridge connectedWorld).2.2 =
        calls Event.isSessionClose connectedWorld + 3 ∧
      (Close okEnv connectedBridge connectedWorld).2.2 =
        connectedWorld ++ [Event.recycleClient (some c), Event.sessionClose sess] :=
  Close_recycles_once okEnv none 24 80 "xterm" heldBridge connectedBridge [] connectedWorld 3
    rfl rfl (by decide)

/-! ## Recycling over the whole life of a bridge -/

/-- C3 (the code at the failing input): on a bridge holding handle 7 with a
fresh guard, a Connect whose PTY request fails returns that error having
recycled handle 7 once, without going through the guard; the Close that follows
finds the guard unfired and recycles handle 7 a second time. -/
theorem Connect_failure_then_Close_recycles_twice :
    (Connect ptyFailEnv none 24 80 "xterm" heldBridge []).1 =
      Outcome.ret (some "ssh: pty-req failed") ∧
    (Connect ptyFailEnv none 24 80 "xterm" heldBridge []).2.1.CloseOnce = some false ∧
    calls (Event.isRecycleOf 7) (Connect ptyFailEnv none 24 80 "xterm" heldBridge []).2.2 = 1 ∧
    (Close ptyFailEnv (Connect ptyFailEnv none 24 80 "xterm" heldBridge []).2.1
      (Connect ptyFailEnv none 24 80 "xterm" heldBridge []).2.2).1 = Outcome.ret none ∧
    (Close ptyFailEnv (Connect ptyFailEnv none 24 80 "xterm" heldBridge []).2.1
      (Connect ptyFailEnv none 24 80 "xterm" heldBridge []).2.2).2.2 =
      [Event.newSession 7, Event.requestPty 3 "xterm" 24 80 modes,
       Event.logErrorf "SSH client %p start ssh shell session err %s",
       Event.recycleClient (some 7), Event.recycleClient (some 7), Event.sessionClose 3] ∧
    calls (Event.isRecycleOf 7)
      (Close ptyFailEnv (Connect ptyFailEnv none 24 80 "xterm" heldBridge []).2.1
        (Connect ptyFailEnv none 24 80 "xterm" heldBridge []).2.2).2.2 = 2 := by
  refine ⟨rfl, rfl, rfl, rfl, rfl, rfl⟩

/-! ## The X11 listener -/

/-- C8: the listener handles the channel-open events one after the other and
none of them stops it: running it over a sequence is running it over the events
before some event, then over that event, then over the events after it, and it
calls Accept once per event of the sequence.  An event whose Accept fails makes
no client-side open and starts no goroutine; an event whose client-side
OpenChannel fails starts no goroutine; every other event opens one x11 channel
on the client connection carrying the ExtraData of that event unchanged and
starts one relay pair between the accepted upstream channel and the opened
client channel: the goroutine copying upstream to client, the goroutine copying
client to upstream, and the goroutine that drains the client channel requests. -/
theorem x11Listener_isolation (openChannel : OpenChannelScript) (clientSess : ClientSession) :
    (∀ pre ch post tr,
      x11Listener openChannel clientSess (pre ++ ch :: post) tr =
        x11Listener openChannel clientSess post
          (x11Listener openChannel clientSess [ch]
            (x11Listener openChannel clientSess pre tr))) ∧
    (∀ chs tr,
      (x11Listener openChannel clientSess chs tr).countP X11Event.isAccept =
        tr.countP X11Event.isAccept + chs.length) ∧
    (∀ ch tr e, ch.Accept = Except.error e →
      x11Listener openChannel clientSess [ch] tr = tr ++ [X11Event.accept ch.ExtraData]) ∧
    (∀ ch tr remoteCh e, ch.Accept = Except.ok remoteCh →
      openChannel (tr.countP X11Event.isOpenChannel) clientSess.conn "x11" ch.ExtraData =
        Except.error e →
      x11Listener openChannel clientSess [ch] tr =
        tr ++ [X11Event.accept ch.ExtraData,
               X11Event.openChannel clientSess.conn "x11" ch.ExtraData]) ∧
    (∀ ch tr remoteCh clientCh clientReqCh, ch.Accept = Except.ok remoteCh →
      openChannel (tr.countP X11Event.isOpenChannel) clientSess.conn "x11" ch.ExtraData =
        Except.ok (clientCh, clientReqCh) →
      x11Listener openChannel clientSess [ch] tr =
        tr ++ [X11Event.accept ch.ExtraData,
               X11Event.openChannel clientSess.conn "x11" ch.ExtraData,
               X11Event.goCopy clientCh remoteCh, X11Event.goCopy remoteCh clientCh,
               X11Event.goReplyFalse clientReqCh]) := by
  refine ⟨?_, ?_, ?_, ?_, ?_⟩
  · intro pre ch post
    induction pre with
    | nil => intro tr; simp only [List.nil_append, x11Listener]; split <;> (try split) <;> rfl
    | cons a pre ih =>
      intro tr
      simp only [List.cons_append, x11Listener]
      split
      · exact ih _
      · split
        · exact ih _
        · exact ih _
  · intro chs
    induction chs with
    | nil => intro tr; simp [x11Listener]
    | cons a chs ih =>
      intro tr
      simp only [x11Listener]
      split
      · rw [ih]
        simp [List.countP_append, List.countP_cons, X11Event.isAccept]
        omega
      · split
        · rw [ih]
          simp [List.countP_append, List.countP_cons, X11Event.isAccept]
          omega
        · rw [ih]
          simp [List.countP_append, List.countP_cons, X11Event.isAccept]
          omega
  · intro ch tr e ha
    simp [x11Listener, ha]
  · intro ch tr remoteCh e ha ho
    simp [x11Listener, ha, List.countP_append, List.countP_cons, X11Event.isOpenChannel, ho]
  · intro ch tr remoteCh clientCh clientReqCh ha ho
    simp [x11Listener, ha, List.countP_append, List.countP_cons, X11Event.isOpenChannel, ho]

/-- Witness of C8: a channel that cannot be accepted, one the client refuses,
then one that is relayed. -/
theorem x11Listener_isolation_witness :
    x11Listener flakyOpen x11Client [brokenChannel] [] = [X11Event.accept [9]] ∧
    x11Listener flakyOpen x11Client [goodChannel 60 [4, 5]] [X11Event.accept [9]] =
      [X11Event.accept [9], X11Event.accept [4, 5], X11Event.openChannel 50 "x11" [4, 5]] ∧
    x11Listener flakyOpen x11Client [goodChannel 61 [6]]
        [X11Event.accept [9], X11Event.accept [4, 5], X11Event.openChannel 50 "x11" [4, 5]] =
      [X11Event.accept [9], X11Event.accept [4, 5], X11Event.openChannel 50 "x11" [4, 5]] ++
        [X11Event.accept [6], X11Event.openChannel 50 "x11" [6], X11Event.goCopy 101 61,
         X11Event.goCopy 61 101, X11Event.goReplyFalse 201] :=
  ⟨(x11Listener_isolation flakyOpen x11Client).2.2.1 brokenChannel [] "EOF" rfl,
   (x11Listener_isolation flakyOpen x11Client).2.2.2.1 (goodChannel 60 [4, 5])
     [X11Event.accept [9]] 60 "ssh: rejected: administratively prohibited" rfl rfl,
   (x11Listener_isolation flakyOpen x11Client).2.2.2.2 (goodChannel 61 [6])
     [X11Event.accept [9], X11Event.accept [4, 5], X11Event.openChannel 50 "x11" [4, 5]]
     61 101 201 rfl rfl⟩

end Koko
